import Mathlib

/-!
Shallow embedding of the bragi-core provider-fanout aggregation gateway
(src/scraper/mod.rs and the concrete scrapers), together with theorems
settling the behavioural claims about it.

Conventions of the embedding:
* protobuf message types (`crate::bragi`) become plain structures;
* `anyhow::Result<T>` becomes `Except String T` (error messages are kept
  informally close to the source but their exact text is never relied on);
* asynchronous upstream HTTP fetches become oracle records: a scraper is
  embedded as a function of an oracle that returns, for each upstream call,
  either the parsed response value or an error;
* `futures::future::try_join_all` over a list of fallible branches becomes
  `tryJoinAllMap` (first error in list order wins);
* a Rust panic (`unwrap` on `None`, out-of-bounds index) is modelled by an
  `Option` result being `none`.
-/

set_option maxHeartbeats 1000000

instance {ε α : Type} [DecidableEq ε] [DecidableEq α] : DecidableEq (Except ε α) := fun x y =>
  match x, y with
  | Except.ok a, Except.ok b =>
    if h : a = b then isTrue (by rw [h]) else isFalse (fun hc => h (Except.ok.inj hc))
  | Except.error a, Except.error b =>
    if h : a = b then isTrue (by rw [h]) else isFalse (fun hc => h (Except.error.inj hc))
  | Except.ok _, Except.error _ => isFalse (fun hc => Except.noConfusion hc)
  | Except.error _, Except.ok _ => isFalse (fun hc => Except.noConfusion hc)

namespace Bragi

/-- Provider enumeration of the bragi protobuf schema: the closed set of
content sources, used as the registry key of the `ScraperManager`. -/
inductive Provider where
  | unspecified
  | bilibili
  | neteaseMusic
  | youtube
  | spotify
deriving DecidableEq, Repr

/-- Zone enumeration of the bragi protobuf schema (search / detail zones). -/
inductive Zone where
  | unspecified
  | track
  | artist
  | playlist
deriving DecidableEq, Repr

/-- The `Image` message: url plus optional dimensions. -/
structure Image where
  url : String
  width : Option Int
  length : Option Int
deriving DecidableEq, Repr

/-- The `Artist` message. -/
structure Artist where
  id : String
  provider : Provider
  name : String
deriving DecidableEq, Repr

/-- The `ArtistDetail` message. -/
structure ArtistDetail where
  artist : Option Artist
  description : Option String
  avatar : Option Image
deriving DecidableEq, Repr

/-- The `Track` message. -/
structure Track where
  id : String
  provider : Provider
  name : String
  artists : List Artist
  cover : Option Image
deriving DecidableEq, Repr

/-- The `Playlist` message (summary form, no track list). -/
structure Playlist where
  id : String
  provider : Provider
  name : String
  artists : List Artist
  cover : Option Image
deriving DecidableEq, Repr

/-- The `PlaylistDetail` message (fully resolved playlist). -/
structure PlaylistDetail where
  id : String
  provider : Provider
  name : String
  artists : List ArtistDetail
  cover : Option Image
  description : Option String
  tracks : List Track
deriving DecidableEq, Repr

/-- The `Suggestion` message of `suggest_response`. -/
structure Suggestion where
  provider : Provider
  suggestion : String
deriving DecidableEq, Repr

/-- The `Stream` message. -/
structure Stream where
  provider : Provider
  quality : String
  url : String
deriving DecidableEq, Repr

/-- The `StreamItem` message of `stream_response`. -/
structure StreamItem where
  audio : Option Stream
  video : Option Stream
deriving DecidableEq, Repr

/-- The oneof `item` of `search_response::SearchItem` (`search_item::Item`). -/
inductive SearchItem.Item where
  | track (t : Track)
  | user (a : ArtistDetail)
  | playlist (p : Playlist)
deriving DecidableEq, Repr

/-- The `SearchItem` message of `search_response`. -/
structure SearchItem where
  item : Option SearchItem.Item
deriving DecidableEq, Repr

/-- The oneof `item` of `detail_response::DetailItem` (`detail_item::Item`). -/
inductive DetailItem.Item where
  | playlist (p : PlaylistDetail)
deriving DecidableEq, Repr

/-- The `DetailItem` message of `detail_response`. -/
structure DetailItem where
  item : Option DetailItem.Item
deriving DecidableEq, Repr

/-- The `SuggestRequest` message: keyword plus requested providers. -/
structure SuggestRequest where
  keyword : String
  providers : List Provider
deriving DecidableEq, Repr

/-- The `SuggestResponse` message. -/
structure SuggestResponse where
  suggestions : List Suggestion
deriving DecidableEq, Repr

/-- The `SearchRequest` message: keyword, page, providers and search zones. -/
structure SearchRequest where
  keyword : String
  page : Int
  providers : List Provider
  fields : List Zone
deriving DecidableEq, Repr

/-- The `SearchResponse` message. -/
structure SearchResponse where
  items : List SearchItem
deriving DecidableEq, Repr

/-- The `DetailRequest` message. -/
structure DetailRequest where
  provider : Provider
  id : String
  zone : Zone
deriving DecidableEq, Repr

/-- The `DetailResponse` message. -/
structure DetailResponse where
  item : Option DetailItem
deriving DecidableEq, Repr

/-- The `StreamRequest` message. -/
structure StreamRequest where
  provider : Provider
  id : String
deriving DecidableEq, Repr

/-- The `StreamResponse` message. -/
structure StreamResponse where
  streams : List StreamItem
deriving DecidableEq, Repr

/-- The `Scraper` trait of `src/scraper/mod.rs`: the four-operation
capability contract, embedded as a record of fallible response functions
(a trait object is exactly its vtable of behaviours). -/
structure Scraper where
  provider : Provider
  suggest : String → Except String (List Suggestion)
  search : String → Int → List Zone → Except String (List SearchItem)
  detail : String → Zone → Except String DetailItem
  stream : String → Except String (List StreamItem)

/-- The `ScraperManager`: a registry mapping each `Provider` to its
registered `Scraper`, if any (the `DashMap` lookup). -/
structure ScraperManager where
  scrapers : Provider → Option Scraper

/-- One fan-out branch of `ScraperManager::suggest`: look the provider up in
the registry (an absent provider yields the "not enabled" error) and invoke
its `suggest`. -/
def ScraperManager.suggestBranch (m : ScraperManager) (keyword : String) (p : Provider) :
    Except String (List Suggestion) :=
  match m.scrapers p with
  | none => Except.error "[ScraperManager] provider not enabled now"
  | some s => s.suggest keyword

/-- One fan-out branch of `ScraperManager::search`. -/
def ScraperManager.searchBranch (m : ScraperManager) (keyword : String) (page : Int)
    (zones : List Zone) (p : Provider) : Except String (List SearchItem) :=
  match m.scrapers p with
  | none => Except.error "[ScraperManager] provider not enabled now"
  | some s => s.search keyword page zones

/-- Embeds `ScraperManager::suggest`: bail when `providers` is empty,
otherwise join all branches, drop (`filter_map(.ok)`) every failing branch
and flatten the successful ones. -/
def ScraperManager.suggest (m : ScraperManager) (req : SuggestRequest) :
    Except String SuggestResponse :=
  if req.providers.isEmpty then
    Except.error "[ScraperManager] providers MUST be provided but is nil."
  else
    Except.ok
      { suggestions :=
          ((req.providers.map (m.suggestBranch req.keyword)).filterMap Except.toOption).flatten }

/-- Embeds `ScraperManager::search`: same fan-out and drop-on-error policy
as `suggest`, with the requested zones forwarded to every branch. -/
def ScraperManager.search (m : ScraperManager) (req : SearchRequest) :
    Except String SearchResponse :=
  if req.providers.isEmpty then
    Except.error "[ScraperManager] providers MUST be provided but is nil."
  else
    Except.ok
      { items :=
          ((req.providers.map
              (m.searchBranch req.keyword req.page req.fields)).filterMap Except.toOption).flatten }

/-- Embeds `ScraperManager::detail`: single-provider lookup, the "not
enabled" error when the provider is unregistered, and scraper errors
propagated unchanged by `?`. -/
def ScraperManager.detail (m : ScraperManager) (req : DetailRequest) :
    Except String DetailResponse :=
  match m.scrapers req.provider with
  | none => Except.error "[ScraperManager] provider not enabled now"
  | some s => (s.detail req.id req.zone).map (fun it => { item := some it })

/-- Embeds `ScraperManager::stream`. The source calls `.unwrap()` on the
registry lookup (`self.scrapers.get(&req.provider()).unwrap()`), so an
unregistered provider panics; the panic is modelled by the outer `Option`
being `none`. A registered provider's scraper error propagates unchanged. -/
def ScraperManager.stream (m : ScraperManager) (req : StreamRequest) :
    Option (Except String StreamResponse) :=
  match m.scrapers req.provider with
  | none => none
  | some s => some ((s.stream req.id).map (fun st => { streams := st }))

/-- A manager with an empty registry (no scraper was added). -/
def emptyManager : ScraperManager := { scrapers := fun _ => none }

/-- Whether a search item is tagged with provider `p`: the top-level
provider field of the track / playlist / user payload equals `p`. -/
def SearchItem.taggedWith (it : SearchItem) (p : Provider) : Bool :=
  match it.item with
  | some (SearchItem.Item.track t) => t.provider == p
  | some (SearchItem.Item.playlist pl) => pl.provider == p
  | some (SearchItem.Item.user a) =>
    match a.artist with
    | some ar => ar.provider == p
    | none => true
  | none => true

/-- A stub scraper that answers every operation successfully, tagging its
results with its own provider. -/
def okScraper (p : Provider) : Scraper where
  provider := p
  suggest := fun k => Except.ok [{ provider := p, suggestion := k }]
  search := fun k _ _ =>
    Except.ok [{ item := some (SearchItem.Item.track
      { id := "t1", provider := p, name := k, artists := [], cover := none }) }]
  detail := fun _ _ => Except.ok { item := none }
  stream := fun _ => Except.ok []

/-- A stub scraper that fails every operation. -/
def failScraper (p : Provider) : Scraper where
  provider := p
  suggest := fun _ => Except.error "boom"
  search := fun _ _ _ => Except.error "boom"
  detail := fun _ _ => Except.error "boom"
  stream := fun _ => Except.error "boom"

/-- A registry with one succeeding scraper (Bilibili) and one failing
scraper (Netease); every other provider is unregistered. -/
def mixedManager : ScraperManager :=
  { scrapers := fun p =>
      if p = Provider.bilibili then some (okScraper Provider.bilibili)
      else if p = Provider.neteaseMusic then some (failScraper Provider.neteaseMusic)
      else none }

/-- C1: for a `StreamRequest` whose provider is unregistered,
`ScraperManager::stream` does NOT return the typed "provider not enabled"
error: it panics (the source unwraps the registry lookup), modelled here by
the `none` result. `ScraperManager::detail` on the same unregistered
provider does return the typed error, as the claim states. -/
theorem c1_stream_unregistered_panics :
    emptyManager.stream { provider := Provider.spotify, id := "track1" } = none
    ∧ (∃ e, emptyManager.detail
        { provider := Provider.spotify, id := "track1", zone := Zone.playlist }
        = Except.error e) :=
  ⟨rfl, ⟨_, rfl⟩⟩

/-- C5: `ScraperManager::suggest` and `ScraperManager::search` return an
error if and only if the request's provider list is empty. -/
theorem c5_error_iff_empty_providers (m : ScraperManager) (sreq : SuggestRequest)
    (qreq : SearchRequest) :
    ((∃ e, m.suggest sreq = Except.error e) ↔ sreq.providers = [])
    ∧ ((∃ e, m.search qreq = Except.error e) ↔ qreq.providers = []) := by
  constructor
  · unfold ScraperManager.suggest
    cases h : sreq.providers with
    | nil => simp [h]
    | cons a l => simp [h]
  · unfold ScraperManager.search
    cases h : qreq.providers with
    | nil => simp [h]
    | cons a l => simp [h]

/-- C6: when the requested provider is registered and its scraper's
`detail` / `stream` call fails, `ScraperManager::detail` /
`ScraperManager::stream` return that same error unchanged. -/
theorem c6_single_target_propagates_error (m : ScraperManager) (s : Scraper) (p : Provider)
    (id1 id2 : String) (zone : Zone) (e1 e2 : String) (hreg : m.scrapers p = some s) :
    (s.detail id1 zone = Except.error e1 →
      m.detail { provider := p, id := id1, zone := zone } = Except.error e1)
    ∧ (s.stream id2 = Except.error e2 →
      m.stream { provider := p, id := id2 } = some (Except.error e2)) := by
  constructor
  · intro h
    simp [ScraperManager.detail, hreg, h, Except.map]
  · intro h
    simp [ScraperManager.stream, hreg, h, Except.map]

/-- Witness for C6 at a concrete registry and failing scraper. -/
theorem c6_witness :
    mixedManager.detail { provider := Provider.neteaseMusic, id := "x", zone := Zone.playlist }
      = Except.error "boom"
    ∧ mixedManager.stream { provider := Provider.neteaseMusic, id := "x" }
      = some (Except.error "boom") := by
  have h := c6_single_target_propagates_error mixedManager
    (failScraper Provider.neteaseMusic) Provider.neteaseMusic "x" "x" Zone.playlist
    "boom" "boom" (by simp [mixedManager])
  exact ⟨h.1 rfl, h.2 rfl⟩

/-- Flattening the successful branches is the same whether the failing
branches are dropped (`filter_map(.ok)`) or replaced by empty lists. -/
theorem flatten_filterMap_toOption {α β : Type} (l : List α) (g : α → Except String (List β)) :
    ((l.map g).filterMap Except.toOption).flatten
      = (l.map (fun a => ((g a).toOption.getD []))).flatten := by
  induction l with
  | nil => rfl
  | cons a t ih =>
    cases h : g a with
    | error e =>
      have h1 : Except.toOption (g a) = none := by rw [h]; rfl
      rw [List.map_cons, List.map_cons, List.filterMap_cons, h1]
      simpa using ih
    | ok xs =>
      have h1 : Except.toOption (g a) = some xs := by rw [h]; rfl
      rw [List.map_cons, List.map_cons, List.filterMap_cons, h1]
      simpa using ih

/-- C4: for every suggest / search request with a non-empty provider list
the manager call succeeds; the returned list is the concatenation of the
branch contributions, where a failing branch (scraper error or provider
absent from the registry) contributes the empty list; and, provided every
registered branch tags its items with its own provider, every returned item
is tagged with one of the requested providers. -/
theorem c4_fanout_concatenation (m : ScraperManager) (sreq : SuggestRequest)
    (qreq : SearchRequest)
    (hs : sreq.providers ≠ [])
    (hq : qreq.providers ≠ [])
    (htag : ∀ p ∈ sreq.providers,
      ∀ x ∈ ((m.suggestBranch sreq.keyword p).toOption.getD []), x.provider = p)
    (htag2 : ∀ p ∈ qreq.providers,
      ∀ x ∈ ((m.searchBranch qreq.keyword qreq.page qreq.fields p).toOption.getD []),
        x.taggedWith p = true) :
    (∃ resp, m.suggest sreq = Except.ok resp
      ∧ resp.suggestions
          = (sreq.providers.map
              (fun p => ((m.suggestBranch sreq.keyword p).toOption.getD []))).flatten
      ∧ ∀ x ∈ resp.suggestions, ∃ p ∈ sreq.providers, x.provider = p)
    ∧ (∃ resp, m.search qreq = Except.ok resp
      ∧ resp.items
          = (qreq.providers.map
              (fun p => ((m.searchBranch qreq.keyword qreq.page qreq.fields p).toOption.getD []))).flatten
      ∧ ∀ x ∈ resp.items, ∃ p ∈ qreq.providers, x.taggedWith p = true) := by
  constructor
  · refine ⟨{ suggestions :=
        ((sreq.providers.map (m.suggestBranch sreq.keyword)).filterMap Except.toOption).flatten },
      ?_, ?_, ?_⟩
    · unfold ScraperManager.suggest
      rw [if_neg (by simpa [List.isEmpty_iff] using hs)]
    · exact flatten_filterMap_toOption _ _
    · intro x hx
      rw [show (({ suggestions :=
            ((sreq.providers.map (m.suggestBranch sreq.keyword)).filterMap Except.toOption).flatten } :
          SuggestResponse)).suggestions
          = ((sreq.providers.map (m.suggestBranch sreq.keyword)).filterMap Except.toOption).flatten
        from rfl, flatten_filterMap_toOption] at hx
      simp only [List.mem_flatten, List.mem_map] at hx
      obtain ⟨lcontrib, ⟨p, hp, rfl⟩, hxl⟩ := hx
      exact ⟨p, hp, htag p hp x hxl⟩
  · refine ⟨{ items :=
        ((qreq.providers.map
          (m.searchBranch qreq.keyword qreq.page qreq.fields)).filterMap Except.toOption).flatten },
      ?_, ?_, ?_⟩
    · unfold ScraperManager.search
      rw [if_neg (by simpa [List.isEmpty_iff] using hq)]
    · exact flatten_filterMap_toOption _ _
    · intro x hx
      rw [show (({ items :=
            ((qreq.providers.map
              (m.searchBranch qreq.keyword qreq.page qreq.fields)).filterMap Except.toOption).flatten } :
          SearchResponse)).items
          = ((qreq.providers.map
              (m.searchBranch qreq.keyword qreq.page qreq.fields)).filterMap Except.toOption).flatten
        from rfl, flatten_filterMap_toOption] at hx
      simp only [List.mem_flatten, List.mem_map] at hx
      obtain ⟨lcontrib, ⟨p, hp, rfl⟩, hxl⟩ := hx
      exact ⟨p, hp, htag2 p hp x hxl⟩

/-- Witness for C4: a fan-out over a succeeding, a failing and an
unregistered provider succeeds and keeps exactly the succeeding branch's
items, tagged with that branch's provider. -/
theorem c4_witness :
    ([Provider.bilibili, Provider.neteaseMusic, Provider.spotify] ≠ ([] : List Provider))
    ∧ (∃ resp,
        mixedManager.suggest
          { keyword := "taffy",
            providers := [Provider.bilibili, Provider.neteaseMusic, Provider.spotify] }
          = Except.ok resp
        ∧ resp.suggestions
            = ([Provider.bilibili, Provider.neteaseMusic, Provider.spotify].map
                (fun p => ((mixedManager.suggestBranch "taffy" p).toOption.getD []))).flatten
        ∧ ∀ x ∈ resp.suggestions,
            ∃ p ∈ [Provider.bilibili, Provider.neteaseMusic, Provider.spotify],
              x.provider = p)
    ∧ (∃ resp,
        mixedManager.search
          { keyword := "taffy", page := 1,
            providers := [Provider.bilibili, Provider.neteaseMusic, Provider.spotify],
            fields := [Zone.track] }
          = Except.ok resp
        ∧ resp.items
            = ([Provider.bilibili, Provider.neteaseMusic, Provider.spotify].map
                (fun p => ((mixedManager.searchBranch "taffy" 1 [Zone.track] p).toOption.getD []))).flatten
        ∧ ∀ x ∈ resp.items,
            ∃ p ∈ [Provider.bilibili, Provider.neteaseMusic, Provider.spotify],
              x.taggedWith p = true) := by
  have h := c4_fanout_concatenation mixedManager
    { keyword := "taffy",
      providers := [Provider.bilibili, Provider.neteaseMusic, Provider.spotify] }
    { keyword := "taffy", page := 1,
      providers := [Provider.bilibili, Provider.neteaseMusic, Provider.spotify],
      fields := [Zone.track] }
    (by decide) (by decide) (by decide) (by decide)
  exact ⟨by decide, h.1, h.2⟩

/-- Embeds `trackid_from` of `src/scraper/bilibili.rs`: the composite track
id `bvid ++ "::" ++ cid`. -/
def trackid_from (bvid cid : String) : String := bvid ++ "::" ++ cid

/-- Embeds `str::split_once("::")` on the character list: splits at the
FIRST occurrence of two consecutive colons, returning the parts before and
after it, or `none` when there is no such occurrence. -/
def splitOnceColons : List Char → Option (List Char × List Char)
  | [] => none
  | [_] => none
  | a :: b :: rest =>
    if a = ':' ∧ b = ':' then some ([], rest)
    else (splitOnceColons (b :: rest)).map (fun q => (a :: q.1, q.2))

/-- Whether a character list contains two consecutive colons (the substring
`"::"`). -/
def hasDoubleColon : List Char → Bool
  | [] => false
  | [_] => false
  | a :: b :: rest => (a == ':' && b == ':') || hasDoubleColon (b :: rest)

/-- Embeds `trackid_into` of `src/scraper/bilibili.rs`: split the id at the
first `"::"` and require both parts non-empty, otherwise a format error. -/
def trackid_into (id : String) : Except String (String × String) :=
  match splitOnceColons id.data with
  | some q =>
    if q.1 ≠ [] ∧ q.2 ≠ [] then Except.ok (String.mk q.1, String.mk q.2)
    else Except.error ("trackID " ++ id ++ " format is wrong. it should be like bvid::cid")
  | none => Except.error ("trackID " ++ id ++ " format is wrong. it should be like bvid::cid")

theorem trackid_into_of_split_some (id : String) (q : List Char × List Char)
    (h : splitOnceColons id.data = some q) :
    trackid_into id
      = if q.1 ≠ [] ∧ q.2 ≠ [] then Except.ok (String.mk q.1, String.mk q.2)
        else Except.error ("trackID " ++ id ++ " format is wrong. it should be like bvid::cid") := by
  unfold trackid_into
  rw [h]

theorem hasDoubleColon_eq_false_iff (l : List Char) :
    hasDoubleColon l = false ↔ splitOnceColons l = none := by
  induction l with
  | nil => simp [hasDoubleColon, splitOnceColons]
  | cons a t ih =>
    cases t with
    | nil => simp [hasDoubleColon, splitOnceColons]
    | cons b rest =>
      by_cases hc : a = ':' ∧ b = ':'
      · simp [hasDoubleColon, splitOnceColons, hc.1, hc.2]
      · have hb : (a == ':' && b == ':') = false := by
          rcases Decidable.not_and_iff_or_not.mp hc with h | h <;> simp [h]
        rw [hasDoubleColon, splitOnceColons, hb, if_neg hc]
        simp [ih, Option.map_eq_none]

theorem splitOnceColons_append (b c : List Char)
    (hsep : splitOnceColons b = none)
    (hlast : b.getLast? ≠ some ':') :
    splitOnceColons (b ++ ':' :: ':' :: c) = some (b, c) := by
  induction b with
  | nil => simp [splitOnceColons]
  | cons a t ih =>
    cases t with
    | nil =>
      have ha : ¬(a = ':' ∧ ':' = ':') := by
        intro h
        exact hlast (by simp [h.1])
      rw [List.cons_append, List.nil_append, splitOnceColons, if_neg ha,
        show splitOnceColons (':' :: ':' :: c) = some ([], c) from by
          rw [splitOnceColons, if_pos ⟨rfl, rfl⟩]]
      rfl
    | cons x t2 =>
      have hc : ¬(a = ':' ∧ x = ':') := by
        intro h
        rw [splitOnceColons, if_pos h] at hsep
        exact Option.noConfusion hsep
      have hsep2 : splitOnceColons (x :: t2) = none := by
        rw [splitOnceColons, if_neg hc] at hsep
        exact Option.map_eq_none.mp hsep
      have hlast2 : (x :: t2).getLast? ≠ some ':' := by
        rwa [List.getLast?_cons_cons] at hlast
      have hres := ih hsep2 hlast2
      rw [List.cons_append] at hres
      rw [List.cons_append, List.cons_append, splitOnceColons, if_neg hc, hres]
      rfl

theorem splitOnceColons_eq_some (s b c : List Char)
    (h : splitOnceColons s = some (b, c)) : s = b ++ ':' :: ':' :: c := by
  induction s generalizing b c with
  | nil => exact absurd h (by simp [splitOnceColons])
  | cons a t ih =>
    cases t with
    | nil => exact absurd h (by simp [splitOnceColons])
    | cons x rest =>
      by_cases hc : a = ':' ∧ x = ':'
      · rw [splitOnceColons, if_pos hc] at h
        have h1 := Option.some.inj h
        have hb : b = [] := (congrArg Prod.fst h1).symm
        have hcr : c = rest := (congrArg Prod.snd h1).symm
        subst hb; subst hcr
        rw [hc.1, hc.2]
        rfl
      · rw [splitOnceColons, if_neg hc] at h
        cases h2 : splitOnceColons (x :: rest) with
        | none => rw [h2] at h; exact absurd h (by simp)
        | some q =>
          rw [h2] at h
          have h1 := Option.some.inj (show some ((a :: q.1, q.2) :
            List Char × List Char) = some (b, c) from h)
          have hb : b = a :: q.1 := (congrArg Prod.fst h1).symm
          have hcq : c = q.2 := (congrArg Prod.snd h1).symm
          subst hb; subst hcq
          have hrec : x :: rest = q.1 ++ ':' :: ':' :: q.2 := ih q.1 q.2 h2
          rw [List.cons_append, ← hrec]

theorem string_data_append (s t : String) : (s ++ t).data = s.data ++ t.data := rfl

/-- C8 counterexample: `bvid = "a:"` is non-empty and contains no `"::"`,
`cid = "b"` is non-empty, yet decoding the composite id does not round-trip
(the separator merges with the trailing colon of `bvid`, and the first
`"::"` occurrence splits one position early). -/
theorem c8_counterexample :
    ("a:" ≠ "" ∧ "b" ≠ "" ∧ hasDoubleColon ("a:").data = false)
    ∧ trackid_into (trackid_from "a:" "b") = Except.ok ("a", ":b")
    ∧ trackid_into (trackid_from "a:" "b") ≠ Except.ok ("a:", "b") := by
  refine ⟨⟨?_, ?_, ?_⟩, ?_, ?_⟩ <;> decide

/-- C8 amended: the round-trip additionally requires that `bvid` does not
end with a colon; and every successfully decoded id is of the composite
form with both parts non-empty. -/
theorem c8_trackid_roundtrip :
    (∀ bvid cid : String, bvid ≠ "" → cid ≠ "" →
      hasDoubleColon bvid.data = false → bvid.data.getLast? ≠ some ':' →
      trackid_into (trackid_from bvid cid) = Except.ok (bvid, cid))
    ∧ (∀ s b c : String, trackid_into s = Except.ok (b, c) →
      s = b ++ "::" ++ c ∧ b ≠ "" ∧ c ≠ "") := by
  constructor
  · intro bvid cid hb hc hsep hlast
    have hdata : (trackid_from bvid cid).data = bvid.data ++ ':' :: ':' :: cid.data := by
      rw [trackid_from, string_data_append, string_data_append, List.append_assoc]
      rfl
    have hsplit : splitOnceColons (trackid_from bvid cid).data = some (bvid.data, cid.data) := by
      rw [hdata]
      exact splitOnceColons_append _ _ ((hasDoubleColon_eq_false_iff _).mp hsep) hlast
    have hbne : bvid.data ≠ [] := fun h => hb (String.ext (by rw [h]))
    have hcne : cid.data ≠ [] := fun h => hc (String.ext (by rw [h]))
    rw [trackid_into_of_split_some _ _ hsplit, if_pos (And.intro hbne hcne)]
  · intro s b c h
    cases h2 : splitOnceColons s.data with
    | none =>
      rw [trackid_into, h2] at h
      exact absurd h (by simp)
    | some q =>
      rw [trackid_into_of_split_some _ _ h2] at h
      by_cases hne : q.1 ≠ [] ∧ q.2 ≠ []
      · rw [if_pos hne] at h
        have hinj := Except.ok.inj h
        have hb1 : String.mk q.1 = b := congrArg Prod.fst hinj
        have hc1 : String.mk q.2 = c := congrArg Prod.snd hinj
        subst hb1; subst hc1
        have hs : s.data = q.1 ++ ':' :: ':' :: q.2 := splitOnceColons_eq_some _ _ _ h2
        refine ⟨String.ext ?_, ?_, ?_⟩
        · rw [hs, string_data_append, string_data_append, List.append_assoc]
          rfl
        · intro hcon
          exact hne.1 (congrArg String.data hcon)
        · intro hcon
          exact hne.2 (congrArg String.data hcon)
      · rw [if_neg hne] at h
        exact absurd h (by simp)

/-- Witness for the amended C8 round-trip at a concrete well-formed id. -/
theorem c8_witness :
    ("BV1x" ≠ "" ∧ "123" ≠ "" ∧ hasDoubleColon ("BV1x").data = false
      ∧ ("BV1x").data.getLast? ≠ some ':')
    ∧ trackid_into (trackid_from "BV1x" "123") = Except.ok ("BV1x", "123") :=
  ⟨by refine ⟨?_, ?_, ?_, ?_⟩ <;> decide,
    c8_trackid_roundtrip.1 "BV1x" "123" (by decide) (by decide) (by decide) (by decide)⟩

/-- Embeds `futures::future::try_join_all` over a list of fallible
branches: all branches are evaluated and the results collected; any failing
branch fails the whole call (the first failure in list order is reported). -/
def tryJoinAllMap {ε α β : Type} (f : α → Except ε β) : List α → Except ε (List β)
  | [] => Except.ok []
  | a :: l =>
    match f a with
    | Except.error e => Except.error e
    | Except.ok b => (tryJoinAllMap f l).map (fun bs => b :: bs)

theorem tryJoinAllMap_isError_of_mem {ε α β : Type} (f : α → Except ε β) (l : List α) (a : α)
    (ha : a ∈ l) (e0 : ε) (he : f a = Except.error e0) :
    ∃ e, tryJoinAllMap f l = Except.error e := by
  induction l with
  | nil => exact absurd ha (List.not_mem_nil a)
  | cons x t ih =>
    rw [List.mem_cons] at ha
    rcases ha with rfl | hat
    · exact ⟨e0, by rw [tryJoinAllMap, he]⟩
    · rw [tryJoinAllMap]
      cases hx : f x with
      | error e => exact ⟨e, rfl⟩
      | ok b =>
        obtain ⟨e, hrec⟩ := ih hat
        exact ⟨e, by rw [hrec]; rfl⟩

/-- Embeds `From<String> for Image` of `src/scraper/bilibili.rs`. -/
def Image.fromUrl (url : String) : Image := { url := url, width := none, length := none }

/-- The `BiliUser` response shape (search / detail user record). -/
structure BiliUser where
  id : Nat
  name : String
  description : Option String
  avatar_url : String
deriving DecidableEq, Repr

/-- Embeds `Into<Artist> for BiliUser`. -/
def BiliUser.intoArtist (u : BiliUser) : Artist :=
  { id := toString u.id, provider := Provider.bilibili, name := u.name }

/-- Embeds `Into<ArtistDetail> for BiliUser`. -/
def BiliUser.intoArtistDetail (u : BiliUser) : ArtistDetail :=
  { artist := some { id := toString u.id, provider := Provider.bilibili, name := u.name },
    description := u.description,
    avatar := some (Image.fromUrl u.avatar_url) }

/-- Embeds `From<BiliUser> for search_item::Item`. -/
def BiliUser.intoSearchItem (u : BiliUser) : SearchItem.Item :=
  SearchItem.Item.user
    { artist := some { id := toString u.id, provider := Provider.bilibili, name := u.name },
      description := u.description,
      avatar := some { url := u.avatar_url, width := none, length := none } }

/-- One entry of `pages` inside a `BiliVideoDetail`. -/
structure BiliVideoDetailItem where
  cid : Nat
  title : String
deriving DecidableEq, Repr

/-- The `BiliVideoDetail` response shape of the video-detail endpoint. -/
structure BiliVideoDetail where
  id : String
  video_number : Nat
  cover_url : String
  title : String
  description : String
  author : BiliUser
  partner : Option (List BiliUser)
  cid : Nat
  videos : List BiliVideoDetailItem
deriving DecidableEq, Repr

/-- The `vec![author].chain(partner.flatten())` user list shared by the
`BiliVideoDetail` conversions. -/
def BiliVideoDetail.allUsers (v : BiliVideoDetail) : List BiliUser :=
  v.author :: v.partner.getD []

/-- Embeds `Into<Track> for BiliVideoDetail`. -/
def BiliVideoDetail.intoTrack (v : BiliVideoDetail) : Track :=
  { id := trackid_from v.id (toString v.cid),
    provider := Provider.bilibili,
    name := v.title,
    artists := v.allUsers.map BiliUser.intoArtist,
    cover := some (Image.fromUrl v.cover_url) }

/-- Embeds `Into<Playlist> for BiliVideoDetail`. -/
def BiliVideoDetail.intoPlaylist (v : BiliVideoDetail) : Playlist :=
  { id := v.id,
    provider := Provider.bilibili,
    name := v.title,
    artists := v.allUsers.map BiliUser.intoArtist,
    cover := some (Image.fromUrl v.cover_url) }

/-- Embeds `BiliVideoDetailItem::into_track_info`. -/
def BiliVideoDetailItem.into_track_info (it : BiliVideoDetailItem) (bvid : String)
    (cover : Image) (artists : List Artist) : Track :=
  { id := trackid_from bvid (toString it.cid),
    provider := Provider.bilibili,
    name := it.title,
    artists := artists,
    cover := some cover }

/-- Embeds `Into<PlaylistDetail> for BiliVideoDetail`. In the source,
`user_infos` is computed as `user_details.map(|i| i.artist.clone().unwrap())`;
the `unwrap` cannot panic because `Into<ArtistDetail> for BiliUser` always
sets `artist` to `Some`, so it equals mapping `intoArtist` directly. -/
def BiliVideoDetail.intoPlaylistDetail (v : BiliVideoDetail) : PlaylistDetail :=
  { id := v.id,
    provider := Provider.bilibili,
    name := v.title,
    artists := v.allUsers.map BiliUser.intoArtistDetail,
    cover := some (Image.fromUrl v.cover_url),
    description := some v.description,
    tracks := v.videos.map
      (fun it => it.into_track_info v.id (Image.fromUrl v.cover_url)
        (v.allUsers.map BiliUser.intoArtist)) }

/-- The `SearchType` enum of `src/scraper/bilibili.rs` (user / video). -/
inductive BiliSearchType where
  | user
  | video
deriving DecidableEq, Repr

/-- The `BiliSearchVideoItem` response shape. -/
structure BiliSearchVideoItem where
  id : String
  cover_url : String
  title : String
  author_id : Nat
  author_name : String
  duration : String
deriving DecidableEq, Repr

/-- The tagged `BiliSearchResultItem` response union. -/
inductive BiliSearchResultItem where
  | video (v : BiliSearchVideoItem)
  | user (u : BiliUser)
deriving DecidableEq, Repr

/-- The upstream HTTP calls of `BiliScraper`, as an oracle: the
search-by-type endpoint and the video-detail endpoint. -/
structure BiliOracle where
  search : String → Int → BiliSearchType → Except String (List BiliSearchResultItem)
  video_detail : String → Except String BiliVideoDetail

/-- Embeds `BiliScraper::bsearch`: fetch the typed search results; a user
entry converts directly, a video entry triggers a video-detail fetch and
becomes a track when it has a single part, otherwise a playlist. -/
def BiliScraper.bsearch (o : BiliOracle) (keyword : String) (page : Int)
    (stype : BiliSearchType) : Except String (List SearchItem.Item) :=
  match o.search keyword page stype with
  | Except.error e => Except.error e
  | Except.ok data =>
    tryJoinAllMap (fun i =>
      match i with
      | BiliSearchResultItem.user u => Except.ok u.intoSearchItem
      | BiliSearchResultItem.video v =>
        match o.video_detail v.id with
        | Except.error e => Except.error e
        | Except.ok vd =>
          if vd.video_number = 1 then Except.ok (SearchItem.Item.track vd.intoTrack)
          else Except.ok (SearchItem.Item.playlist vd.intoPlaylist)) data

/-- Embeds `Scraper::search for BiliScraper`: bail out when any requested
zone is `Unspecified`, otherwise join the per-zone branches (track and
playlist zones share the video search, filtered by item kind). -/
def BiliScraper.search (o : BiliOracle) (keyword : String) (page : Int)
    (fields : List Zone) : Except String (List SearchItem) :=
  if fields.any (fun z => z == Zone.unspecified) then
    Except.error "unknown search zone"
  else
    match tryJoinAllMap (fun zone =>
      match zone with
      | Zone.track =>
        (BiliScraper.bsearch o keyword page BiliSearchType.video).map
          (fun l => l.filter (fun v =>
            match v with
            | SearchItem.Item.track _ => true
            | _ => false))
      | Zone.artist => BiliScraper.bsearch o keyword page BiliSearchType.user
      | Zone.playlist =>
        (BiliScraper.bsearch o keyword page BiliSearchType.video).map
          (fun l => l.filter (fun v =>
            match v with
            | SearchItem.Item.playlist _ => true
            | _ => false))
      | Zone.unspecified => Except.error "unknown search zone") fields with
    | Except.error e => Except.error e
    | Except.ok rs => Except.ok (rs.flatten.map (fun v => { item := some v }))

/-- Embeds `Scraper::detail for BiliScraper`: only the playlist zone is
served (by a video-detail fetch); every other zone is an error. -/
def BiliScraper.detail (o : BiliOracle) (id : String) (zone : Zone) :
    Except String DetailItem :=
  match zone with
  | Zone.playlist =>
    (o.video_detail id).map
      (fun t => { item := some (DetailItem.Item.playlist t.intoPlaylistDetail) })
  | Zone.unspecified => Except.error "unknown detail zone"
  | _ => Except.error "[Bilibili] detail zone not supported"

/-- The `NeteaseArtist` response shape. -/
structure NeteaseArtist where
  id : Int
  name : String
  pic_url : Option String
  back_image_url : Option String
deriving DecidableEq, Repr

/-- The `NeteaseAccount` response shape. -/
structure NeteaseAccount where
  user_id : Int
  nickname : String
  avatar_url : Option String
  description : Option String
deriving DecidableEq, Repr

/-- The `NeteaseAlbum` response shape. -/
structure NeteaseAlbum where
  pic_url : Option String
deriving DecidableEq, Repr

/-- The `NeteaseSong` response shape. -/
structure NeteaseSong where
  id : Int
  name : String
  artists : List NeteaseArtist
  album : Option NeteaseAlbum
deriving DecidableEq, Repr

/-- The `NeteasePlaylist` response shape. -/
structure NeteasePlaylist where
  id : Int
  name : String
  cover_url : Option String
  creator : NeteaseAccount
  description : Option String
deriving DecidableEq, Repr

/-- One entry of `trackIds` of a playlist-detail response. -/
structure NeteasePlaylistTrackID where
  id : Int
deriving DecidableEq, Repr

/-- The `NeteasePlaylistDetail` response shape. -/
structure NeteasePlaylistDetail where
  basic_info : NeteasePlaylist
  track_ids : List NeteasePlaylistTrackID
deriving DecidableEq, Repr

/-- Embeds `Into<Artist> for NeteaseArtist`. -/
def NeteaseArtist.intoArtist (a : NeteaseArtist) : Artist :=
  { id := toString a.id, provider := Provider.neteaseMusic, name := a.name }

/-- Embeds `Into<ArtistDetail> for NeteaseArtist`. -/
def NeteaseArtist.intoArtistDetail (a : NeteaseArtist) : ArtistDetail :=
  { artist := some { id := toString a.id, provider := Provider.neteaseMusic, name := a.name },
    description := none,
    avatar := (a.pic_url.or a.back_image_url).map
      (fun v => { url := v, width := none, length := none }) }

/-- Embeds `Into<Artist> for NeteaseAccount`. -/
def NeteaseAccount.intoArtist (a : NeteaseAccount) : Artist :=
  { id := toString a.user_id, provider := Provider.neteaseMusic, name := a.nickname }

/-- Embeds `Into<ArtistDetail> for NeteaseAccount`. -/
def NeteaseAccount.intoArtistDetail (a : NeteaseAccount) : ArtistDetail :=
  { artist := some
      { id := toString a.user_id, provider := Provider.neteaseMusic, name := a.nickname },
    description := a.description,
    avatar := a.avatar_url.map (fun i => { url := i, width := none, length := none }) }

/-- Embeds `Into<Track> for NeteaseSong`. -/
def NeteaseSong.intoTrack (s : NeteaseSong) : Track :=
  { id := toString s.id,
    provider := Provider.neteaseMusic,
    name := s.name,
    artists := s.artists.map NeteaseArtist.intoArtist,
    cover := (s.album.map
      (fun a => a.pic_url.map (fun p => ({ url := p, width := none, length := none } : Image)))).join }

/-- Embeds `Into<Playlist> for NeteasePlaylist`. -/
def NeteasePlaylist.intoPlaylist (p : NeteasePlaylist) : Playlist :=
  { id := toString p.id,
    provider := Provider.neteaseMusic,
    name := p.name,
    artists := [p.creator.intoArtist],
    cover := p.cover_url.map (fun i => { url := i, width := none, length := none }) }

/-- The `SearchType` enum of `src/scraper/netease.rs` with its wire values
(TRACK = 1, ARTIST = 100, PLAYLIST = 1000). -/
inductive NeteaseSearchType where
  | track
  | artist
  | playlist
deriving DecidableEq, Repr

/-- Wire value of a `NeteaseSearchType` (the `value()` method). -/
def NeteaseSearchType.value : NeteaseSearchType → Nat
  | NeteaseSearchType.track => 1
  | NeteaseSearchType.artist => 100
  | NeteaseSearchType.playlist => 1000

/-- The untagged `NeteaseSearch` response union. -/
inductive NeteaseSearch where
  | song (songs : List NeteaseSong)
  | playlist (playlists : List NeteasePlaylist)
  | artist (artists : List NeteaseArtist)
deriving DecidableEq, Repr

/-- The upstream HTTP calls of `NeteaseScraper`, as an oracle: cloudsearch
(keyword, offset, wire type value), playlist detail, and batch song detail
(comma-joined id list). -/
structure NeteaseOracle where
  cloudsearch : String → Int → Nat → Except String NeteaseSearch
  playlist_detail : String → Except String NeteasePlaylistDetail
  batch_songs : String → Except String (List NeteaseSong)

/-- Embeds `NeteaseScraper::nsearch`. -/
def NeteaseScraper.nsearch (o : NeteaseOracle) (keyword : String) (offset : Int)
    (t : NeteaseSearchType) : Except String (List SearchItem) :=
  match o.cloudsearch keyword offset t.value with
  | Except.error e => Except.error e
  | Except.ok resp =>
    Except.ok
      (match resp with
      | NeteaseSearch.song songs =>
        songs.map (fun i => { item := some (SearchItem.Item.track i.intoTrack) })
      | NeteaseSearch.playlist ps =>
        ps.map (fun i => { item := some (SearchItem.Item.playlist i.intoPlaylist) })
      | NeteaseSearch.artist arts =>
        arts.map (fun i => { item := some (SearchItem.Item.user i.intoArtistDetail) }))

/-- One per-zone branch of `Scraper::search for NeteaseScraper` (the
closure passed to `try_join_all`). -/
def NeteaseScraper.searchBranch (o : NeteaseOracle) (keyword : String) (page : Int) :
    Zone → Except String (List SearchItem)
  | Zone.track => NeteaseScraper.nsearch o keyword ((page - 1) * 30) NeteaseSearchType.track
  | Zone.artist => NeteaseScraper.nsearch o keyword ((page - 1) * 30) NeteaseSearchType.artist
  | Zone.playlist => NeteaseScraper.nsearch o keyword ((page - 1) * 30) NeteaseSearchType.playlist
  | Zone.unspecified => Except.error "[Netease] unknown zone"

/-- Embeds `Scraper::search for NeteaseScraper`: join the per-zone
branches; an `Unspecified` zone branch is an error. -/
def NeteaseScraper.search (o : NeteaseOracle) (keyword : String) (page : Int)
    (zones : List Zone) : Except String (List SearchItem) :=
  (tryJoinAllMap (NeteaseScraper.searchBranch o keyword page) zones).map List.flatten

/-- Embeds `Scraper::detail for NeteaseScraper`: only the playlist zone is
served; the playlist detail is fetched, then the member tracks by a batch
song-detail call on the comma-joined track ids. -/
def NeteaseScraper.detail (o : NeteaseOracle) (id : String) (zone : Zone) :
    Except String DetailItem :=
  if zone ≠ Zone.playlist then Except.error "[Netease] unsupoorted zone"
  else
    match o.playlist_detail id with
    | Except.error e => Except.error e
    | Except.ok playlist =>
      match o.batch_songs
        (String.intercalate "," (playlist.track_ids.map (fun i => toString i.id))) with
      | Except.error e => Except.error e
      | Except.ok tracks =>
        Except.ok
          { item := some (DetailItem.Item.playlist
            { id := toString playlist.basic_info.id,
              provider := Provider.neteaseMusic,
              name := playlist.basic_info.name,
              artists := [playlist.basic_info.creator.intoArtistDetail],
              cover := playlist.basic_info.cover_url.map
                (fun i => { url := i, width := none, length := none }),
              description := playlist.basic_info.description,
              tracks := tracks.map NeteaseSong.intoTrack }) }

/-- The `InvidiousThumbnail` response shape. -/
structure InvidiousThumbnail where
  quality : Option String
  url : String
  width : Int
  height : Int
deriving DecidableEq, Repr

/-- Embeds `Into<Image> for InvidiousThumbnail`. -/
def InvidiousThumbnail.intoImage (t : InvidiousThumbnail) : Image :=
  { url := t.url, width := some t.width, length := some t.height }

/-- Embeds `thumbnails_to_image` of `src/scraper/youtube.rs`: the widest
thumbnail (ties resolved to the later element, as `Iterator::max_by`). -/
def thumbnails_to_image (l : List InvidiousThumbnail) : Option Image :=
  (l.foldl (fun acc x =>
    match acc with
    | none => some x
    | some m => if m.width ≤ x.width then some x else some m) none).map
    InvidiousThumbnail.intoImage

/-- The `InvidiousSearchVideo` response shape. -/
structure InvidiousSearchVideo where
  id : String
  title : String
  author_name : String
  author_id : String
  video_covers : List InvidiousThumbnail
deriving DecidableEq, Repr

/-- Embeds `Into<search_item::Item> for InvidiousSearchVideo`
(src/scraper/youtube.rs lines 143-157). The nested artist is tagged
`Provider::Bilibili` in the source, while the track itself is tagged
`Provider::Youtube`. -/
def InvidiousSearchVideo.intoItem (v : InvidiousSearchVideo) : SearchItem.Item :=
  SearchItem.Item.track
    { id := v.id,
      provider := Provider.youtube,
      name := v.title,
      artists := [{ id := v.author_id, provider := Provider.bilibili, name := v.author_name }],
      cover := thumbnails_to_image v.video_covers }

/-- The `InvidiousSearchChannel` response shape. -/
structure InvidiousSearchChannel where
  id : String
  name : String
  description : String
  thumbnails : List InvidiousThumbnail
deriving DecidableEq, Repr

/-- Embeds `Into<search_item::Item> for InvidiousSearchChannel`. -/
def InvidiousSearchChannel.intoItem (c : InvidiousSearchChannel) : SearchItem.Item :=
  SearchItem.Item.user
    { artist := some { id := c.id, provider := Provider.youtube, name := c.name },
      description := some c.description,
      avatar := thumbnails_to_image c.thumbnails }

/-- The `InvidiousSearchPlaylist` response shape. -/
structure InvidiousSearchPlaylist where
  id : String
  title : String
  cover_url : String
  author_name : String
  author_id : String
deriving DecidableEq, Repr

/-- Embeds `Into<search_item::Item> for InvidiousSearchPlaylist`. -/
def InvidiousSearchPlaylist.intoItem (p : InvidiousSearchPlaylist) : SearchItem.Item :=
  SearchItem.Item.playlist
    { id := p.id,
      provider := Provider.youtube,
      name := p.title,
      artists := [{ id := p.author_id, provider := Provider.youtube, name := p.author_name }],
      cover := some { url := p.cover_url, width := none, length := none } }

/-- The tagged `InvidiousSearchResponse` union. -/
inductive InvidiousSearchResponse where
  | searchVideo (v : InvidiousSearchVideo)
  | searchUser (c : InvidiousSearchChannel)
  | searchPlaylist (p : InvidiousSearchPlaylist)
deriving DecidableEq, Repr

/-- Embeds `Into<SearchItem> for InvidiousSearchResponse`. -/
def InvidiousSearchResponse.intoSearchItem : InvidiousSearchResponse → SearchItem
  | InvidiousSearchResponse.searchVideo v => { item := some v.intoItem }
  | InvidiousSearchResponse.searchUser c => { item := some c.intoItem }
  | InvidiousSearchResponse.searchPlaylist p => { item := some p.intoItem }

/-- One entry of `videos` of an `InvidiousPlaylistDetail`. -/
structure InvidiousPlaylistVideoItem where
  id : String
  title : String
  covers : List InvidiousThumbnail
  author_name : String
  author_id : String
deriving DecidableEq, Repr

/-- Embeds `Into<Track> for InvidiousPlaylistVideoItem`. -/
def InvidiousPlaylistVideoItem.intoTrack (v : InvidiousPlaylistVideoItem) : Track :=
  { id := v.id,
    provider := Provider.youtube,
    name := v.title,
    artists := [{ id := v.author_id, provider := Provider.youtube, name := v.author_name }],
    cover := thumbnails_to_image v.covers }

/-- The `InvidiousPlaylistDetail` response shape. -/
structure InvidiousPlaylistDetail where
  id : String
  title : String
  author_name : String
  author_id : String
  author_thumbnails : List InvidiousThumbnail
  description : String
  videos : List InvidiousPlaylistVideoItem
deriving DecidableEq, Repr

/-- Embeds `Into<PlaylistDetail> for InvidiousPlaylistDetail`
(src/scraper/youtube.rs lines 341-361). The source indexes
`self.videos[0]` to build the cover, which panics when `videos` is empty;
the panic is modelled by the `none` result. -/
def InvidiousPlaylistDetail.intoPlaylistDetail (d : InvidiousPlaylistDetail) :
    Option PlaylistDetail :=
  match d.videos with
  | [] => none
  | v0 :: _ =>
    let authorDetail : ArtistDetail :=
      { artist := some
          { id := d.author_id, provider := Provider.youtube, name := d.author_name },
        description := none,
        avatar := thumbnails_to_image d.author_thumbnails }
    some
      { id := d.id,
        provider := Provider.youtube,
        name := d.title,
        artists := [authorDetail],
        cover := thumbnails_to_image v0.covers,
        description := some d.description,
        tracks := d.videos.map InvidiousPlaylistVideoItem.intoTrack }

/-- The upstream HTTP calls of `YouTubeScraper`, as an oracle: the typed
search endpoint (keyword, page, invidious type string) and the
playlist-detail endpoint. -/
structure YouTubeOracle where
  search : String → Int → String → Except String (List InvidiousSearchResponse)
  fetch_playlist : String → Except String InvidiousPlaylistDetail

/-- Embeds `YouTubeScraper::ysearch`: pick the invidious search type for
the zone (bailing on an unsupported zone before any request) and convert
the results. -/
def YouTubeScraper.ysearch (o : YouTubeOracle) (keyword : String) (page : Int)
    (zone : Zone) : Except String (List SearchItem) :=
  match zone with
  | Zone.track =>
    (o.search keyword page "video").map (fun l => l.map InvidiousSearchResponse.intoSearchItem)
  | Zone.playlist =>
    (o.search keyword page "playlist").map (fun l => l.map InvidiousSearchResponse.intoSearchItem)
  | Zone.artist =>
    (o.search keyword page "channel").map (fun l => l.map InvidiousSearchResponse.intoSearchItem)
  | Zone.unspecified => Except.error "[YouTube] unsupported search zone"

/-- Embeds `Scraper::search for YouTubeScraper`: join the per-zone
branches and flatten. -/
def YouTubeScraper.search (o : YouTubeOracle) (keyword : String) (page : Int)
    (fields : List Zone) : Except String (List SearchItem) :=
  (tryJoinAllMap (YouTubeScraper.ysearch o keyword page) fields).map List.flatten

/-- Embeds `YouTubeScraper::playlist_detail`: fetch and convert; the
conversion's `videos[0]` panic propagates (outer `none`). -/
def YouTubeScraper.playlist_detail (o : YouTubeOracle) (id : String) :
    Option (Except String PlaylistDetail) :=
  match o.fetch_playlist id with
  | Except.error e => some (Except.error e)
  | Except.ok d => d.intoPlaylistDetail.map Except.ok

/-- Embeds `Scraper::detail for YouTubeScraper`: only the playlist zone is
served; other zones are a "not supported" error. The outer `Option` is
`none` exactly when the playlist conversion panics. -/
def YouTubeScraper.detail (o : YouTubeOracle) (id : String) (zone : Zone) :
    Option (Except String DetailItem) :=
  match zone with
  | Zone.playlist =>
    (YouTubeScraper.playlist_detail o id).map
      (fun r => r.map (fun v => { item := some (DetailItem.Item.playlist v) }))
  | _ => some (Except.error "[YouTube] detail zone not supported")

/-- The `rspotify` image model (width and height optional); all rspotify
ids are modelled as the strings their `to_string` produces. -/
structure RSpotifyImage where
  url : String
  width : Option Nat
  height : Option Nat
deriving DecidableEq, Repr

/-- Embeds `Into<Image> for rspotify::model::image::Image`. In the source
BOTH `width` and `length` are filled from `self.width` (spotify.rs line
61). -/
def RSpotifyImage.intoImage (i : RSpotifyImage) : Image :=
  { url := i.url, width := i.width.map Int.ofNat, length := i.width.map Int.ofNat }

/-- Strict comparison of optional widths with the `Option<u32>` ordering
(`None` below every `Some`). -/
def widthLt : Option Nat → Option Nat → Bool
  | none, none => false
  | none, some _ => true
  | some _, none => false
  | some a, some b => a < b

/-- The `max_by(|x, y| x.width.cmp(&y.width))` selection over spotify
images (ties resolved to the later element). -/
def spotMaxImage (l : List RSpotifyImage) : Option RSpotifyImage :=
  l.foldl (fun acc x =>
    match acc with
    | none => some x
    | some m => if widthLt x.width m.width then some m else some x) none

/-- The `rspotify` public-user model. -/
structure RSpotifyPublicUser where
  id : String
  display_name : Option String
  images : List RSpotifyImage
deriving DecidableEq, Repr

/-- Embeds `Into<Artist> for rspotify::model::user::PublicUser`. -/
def RSpotifyPublicUser.intoArtist (u : RSpotifyPublicUser) : Artist :=
  { id := u.id, provider := Provider.spotify, name := u.display_name.getD u.id }

/-- Embeds `Into<ArtistDetail> for rspotify::model::user::PublicUser`. -/
def RSpotifyPublicUser.intoArtistDetail (u : RSpotifyPublicUser) : ArtistDetail :=
  { artist := some
      { id := u.id, provider := Provider.spotify, name := u.display_name.getD u.id },
    description := none,
    avatar := (spotMaxImage u.images).map RSpotifyImage.intoImage }

/-- The `rspotify` simplified-artist model (id may be absent). -/
structure RSpotifySimplifiedArtist where
  id : Option String
  name : String
deriving DecidableEq, Repr

/-- Embeds `TryInto<Artist> for rspotify::model::artist::SimplifiedArtist`. -/
def RSpotifySimplifiedArtist.tryIntoArtist (a : RSpotifySimplifiedArtist) :
    Except String Artist :=
  match a.id with
  | some i => Except.ok { id := i, provider := Provider.spotify, name := a.name }
  | none => Except.error ("[Spotify] artist " ++ a.name ++ " id is empty")

/-- The `rspotify` full-artist model. -/
structure RSpotifyFullArtist where
  id : String
  name : String
  images : List RSpotifyImage
deriving DecidableEq, Repr

/-- Embeds `Into<ArtistDetail> for rspotify::model::artist::FullArtist`. -/
def RSpotifyFullArtist.intoArtistDetail (a : RSpotifyFullArtist) : ArtistDetail :=
  { artist := some { id := a.id, provider := Provider.spotify, name := a.name },
    description := none,
    avatar := (spotMaxImage a.images).map RSpotifyImage.intoImage }

/-- The album part of an `rspotify` full track (only its images are
used). -/
structure RSpotifyAlbum where
  images : List RSpotifyImage
deriving DecidableEq, Repr

/-- The `rspotify` full-track model (id may be absent for local tracks). -/
structure RSpotifyFullTrack where
  id : Option String
  name : String
  artists : List RSpotifySimplifiedArtist
  album : RSpotifyAlbum
deriving DecidableEq, Repr

/-- Embeds `TryInto<Track> for rspotify::model::track::FullTrack`: fails
when the id is absent, silently drops artists without ids. -/
def RSpotifyFullTrack.tryIntoTrack (t : RSpotifyFullTrack) : Except String Track :=
  match t.id with
  | none => Except.error "[Spotify] track id is empty"
  | some i =>
    Except.ok
      { id := i,
        provider := Provider.spotify,
        name := t.name,
        artists := t.artists.filterMap (fun a => a.tryIntoArtist.toOption),
        cover := (spotMaxImage t.album.images).map RSpotifyImage.intoImage }

/-- The `rspotify` simplified-playlist model. -/
structure RSpotifySimplifiedPlaylist where
  id : String
  name : String
  owner : RSpotifyPublicUser
  images : List RSpotifyImage
deriving DecidableEq, Repr

/-- Embeds `Into<Playlist> for rspotify::model::playlist::SimplifiedPlaylist`. -/
def RSpotifySimplifiedPlaylist.intoPlaylist (p : RSpotifySimplifiedPlaylist) : Playlist :=
  { id := p.id,
    provider := Provider.spotify,
    name := p.name,
    artists := [p.owner.intoArtist],
    cover := (spotMaxImage p.images).map RSpotifyImage.intoImage }

/-- The `rspotify::model::SearchType` values used by `SpotifyScraper`
(`_` covers albums, shows and episodes, which the scraper does not
request but the search response type admits). -/
inductive SpotifySearchType where
  | track
  | artist
  | playlist
deriving DecidableEq, Repr

/-- The `rspotify::model::SearchResult` union; `other` stands for the
album / show / episode pages matched by the catch-all `_ => bail!`. -/
inductive RSpotifySearchResult where
  | artists (items : List RSpotifyFullArtist)
  | playlists (items : List RSpotifySimplifiedPlaylist)
  | tracks (items : List RSpotifyFullTrack)
  | other
deriving DecidableEq, Repr

/-- The `rspotify` full-playlist model. -/
structure RSpotifyFullPlaylist where
  id : String
  name : String
  owner : RSpotifyPublicUser
  images : List RSpotifyImage
  description : Option String
deriving DecidableEq, Repr

/-- The `rspotify::model::PlayableItem` union (track or podcast
episode). -/
inductive RSpotifyPlayableItem where
  | track (t : RSpotifyFullTrack)
  | episode
deriving DecidableEq, Repr

/-- The upstream calls of `SpotifyScraper`, as an oracle: the typed search
endpoint (keyword, type, limit, offset), playlist-id validation
(`PlaylistId::from_id_or_uri`), the playlist endpoint, and the playlist
item pagination stream (each page item independently fallible, with the
`track` field of a fetched item possibly absent). -/
structure SpotifyOracle where
  search_api : String → SpotifySearchType → Nat → Nat → Except String RSpotifySearchResult
  parse_playlist_id : String → Except String String
  playlist : String → Except String RSpotifyFullPlaylist
  playlist_items : String → List (Except String (Option RSpotifyPlayableItem))

/-- Embeds `SpotifyScraper::sposearch`: dispatch on the search-result page
kind; an unexpected kind is an error. -/
def SpotifyScraper.sposearch (o : SpotifyOracle) (keyword : String) (limit offset : Nat)
    (field : SpotifySearchType) : Except String (List SearchItem) :=
  match o.search_api keyword field limit offset with
  | Except.error e => Except.error e
  | Except.ok (RSpotifySearchResult.artists a) =>
    Except.ok (a.map (fun i => { item := some (SearchItem.Item.user i.intoArtistDetail) }))
  | Except.ok (RSpotifySearchResult.playlists p) =>
    Except.ok (p.map (fun i => { item := some (SearchItem.Item.playlist i.intoPlaylist) }))
  | Except.ok (RSpotifySearchResult.tracks t) =>
    Except.ok (t.filterMap (fun i =>
      (i.tryIntoTrack.toOption).map (fun j => { item := some (SearchItem.Item.track j) })))
  | Except.ok RSpotifySearchResult.other => Except.error "[Spotify] unknown search result"

/-- Wrapping u32 arithmetic (release-mode semantics of `as u32`). -/
def u32_wrap (n : Int) : Int := ((n % 4294967296) + 4294967296) % 4294967296

/-- The `(page as u32 - 1) * 20` offset computation of
`SpotifyScraper::search`, with wrapping u32 arithmetic. -/
def spotifyOffset (page : Int) : Nat := (u32_wrap ((u32_wrap page - 1) * 20)).toNat

/-- The zone-to-search-type coercion of `SpotifyScraper::search`
(spotify.rs lines 351-355): `Zone::Unspecified` is mapped to a TRACK
search rather than rejected. -/
def SpotifyScraper.zoneSearchType : Zone → SpotifySearchType
  | Zone.artist => SpotifySearchType.artist
  | Zone.playlist => SpotifySearchType.playlist
  | Zone.track => SpotifySearchType.track
  | Zone.unspecified => SpotifySearchType.track

/-- Embeds `Scraper::search for SpotifyScraper`: coerce every zone to a
search type, join the branches and flatten. -/
def SpotifyScraper.search (o : SpotifyOracle) (keyword : String) (page : Int)
    (fields : List Zone) : Except String (List SearchItem) :=
  (tryJoinAllMap
    (fun t => SpotifyScraper.sposearch o keyword 20 (spotifyOffset page) t)
    (fields.map SpotifyScraper.zoneSearchType)).map List.flatten

/-- The `filter_map` plus `try_collect` over the playlist item stream of
`SpotifyScraper::detail`: skipped pages are items fetched without a track
payload or with a non-track payload; a failed page fetch or a track
without id fails the whole collection. -/
def spotifyCollectTracks (items : List (Except String (Option RSpotifyPlayableItem))) :
    Except String (List Track) :=
  tryJoinAllMap (fun x => x)
    (items.filterMap (fun v =>
      match v with
      | Except.ok (some (RSpotifyPlayableItem.track t)) => some t.tryIntoTrack
      | Except.ok _ => none
      | Except.error e => some (Except.error ("[Spotify] fetch playlist item failed: " ++ e))))

/-- Embeds `Scraper::detail for SpotifyScraper`: only the playlist zone is
served; the id is validated, the playlist fetched and its item stream
collected into the track list. -/
def SpotifyScraper.detail (o : SpotifyOracle) (id : String) (zone : Zone) :
    Except String DetailItem :=
  if zone ≠ Zone.playlist then Except.error "[Spotify] unsupported zone"
  else
    match o.parse_playlist_id id with
    | Except.error e => Except.error e
    | Except.ok pid =>
      match o.playlist pid with
      | Except.error e => Except.error e
      | Except.ok playlist =>
        match spotifyCollectTracks (o.playlist_items pid) with
        | Except.error e => Except.error e
        | Except.ok tracks =>
          Except.ok
            { item := some (DetailItem.Item.playlist
              { id := playlist.id,
                provider := Provider.spotify,
                name := playlist.name,
                artists := [playlist.owner.intoArtistDetail],
                cover := (spotMaxImage playlist.images).map RSpotifyImage.intoImage,
                description := playlist.description,
                tracks := tracks }) }

/-- A concrete YouTube search video result. -/
def ytVideoW : InvidiousSearchVideo :=
  { id := "v1", title := "t", author_name := "a", author_id := "ch1", video_covers := [] }

/-- C2 evidence: converting a YouTube search video tags the track itself
with `Provider::Youtube` but its nested artist with `Provider::Bilibili`
(youtube.rs line 151), so an entity produced by the YouTube scraper is
tagged with a different Provider. -/
theorem c2_youtube_nested_artist_mistagged :
    InvidiousSearchVideo.intoItem ytVideoW
      = SearchItem.Item.track
        { id := "v1", provider := Provider.youtube, name := "t",
          artists := [{ id := "ch1", provider := Provider.bilibili, name := "a" }],
          cover := none }
    ∧ Provider.bilibili ≠ Provider.youtube :=
  ⟨rfl, by decide⟩

/-- A Spotify full track with an id, as returned by a track search page. -/
def spotifyTrackW : RSpotifyFullTrack :=
  { id := some "t1", name := "song", artists := [], album := { images := [] } }

/-- A Spotify oracle whose track search returns one track and whose other
search pages are empty; detail endpoints are unused. -/
def spotifyOracleW : SpotifyOracle :=
  { search_api := fun _ t _ _ =>
      match t with
      | SpotifySearchType.track => Except.ok (RSpotifySearchResult.tracks [spotifyTrackW])
      | SpotifySearchType.artist => Except.ok (RSpotifySearchResult.artists [])
      | SpotifySearchType.playlist => Except.ok (RSpotifySearchResult.playlists []),
    parse_playlist_id := fun _ => Except.error "not used",
    playlist := fun _ => Except.error "not used",
    playlist_items := fun _ => [] }

/-- C3 counterexample: a Spotify search whose only requested zone is
`Unspecified` silently performs a TRACK search and returns its (non-empty)
results instead of an empty list or a typed "unsupported" error. -/
theorem c3_counterexample :
    SpotifyScraper.search spotifyOracleW "k" 1 [Zone.unspecified]
      = Except.ok [{ item := some (SearchItem.Item.track
          { id := "t1", provider := Provider.spotify, name := "song", artists := [],
            cover := none }) }]
    ∧ ([{ item := some (SearchItem.Item.track
          { id := "t1", provider := Provider.spotify, name := "song", artists := [],
            cover := none }) }] : List SearchItem) ≠ [] := by
  exact ⟨by decide, by decide⟩

/-- A Bilibili oracle whose upstream is down. -/
def biliOracleW : BiliOracle :=
  { search := fun _ _ _ => Except.error "down", video_detail := fun _ => Except.error "down" }

/-- A Netease oracle whose upstream is down. -/
def neteaseOracleW : NeteaseOracle :=
  { cloudsearch := fun _ _ _ => Except.error "down",
    playlist_detail := fun _ => Except.error "down",
    batch_songs := fun _ => Except.error "down" }

/-- A YouTube oracle whose upstream is down. -/
def youtubeOracleW : YouTubeOracle :=
  { search := fun _ _ _ => Except.error "down",
    fetch_playlist := fun _ => Except.error "down" }

/-- C3 amended: for the Bilibili, Netease and YouTube scrapers a requested
zone list containing `Unspecified` makes the whole search call fail with a
typed error (before or instead of any search of another type); the Spotify
scraper instead silently maps `Unspecified` to a TRACK search. -/
theorem c3_unsupported_zone (o1 : BiliOracle) (o2 : NeteaseOracle) (o3 : YouTubeOracle)
    (o4 : SpotifyOracle) (keyword : String) (page : Int) (zones : List Zone)
    (hmem : Zone.unspecified ∈ zones) :
    (∃ e, BiliScraper.search o1 keyword page zones = Except.error e)
    ∧ (∃ e, NeteaseScraper.search o2 keyword page zones = Except.error e)
    ∧ (∃ e, YouTubeScraper.search o3 keyword page zones = Except.error e)
    ∧ (∀ rest, SpotifyScraper.search o4 keyword page (Zone.unspecified :: rest)
        = SpotifyScraper.search o4 keyword page (Zone.track :: rest)) := by
  refine ⟨?_, ?_, ?_, ?_⟩
  · refine ⟨"unknown search zone", ?_⟩
    rw [BiliScraper.search, if_pos ?_]
    exact List.any_eq_true.mpr ⟨Zone.unspecified, hmem, rfl⟩
  · obtain ⟨e, he⟩ := tryJoinAllMap_isError_of_mem (NeteaseScraper.searchBranch o2 keyword page)
      zones Zone.unspecified hmem "[Netease] unknown zone" rfl
    exact ⟨e, by rw [NeteaseScraper.search, he]; rfl⟩
  · obtain ⟨e, he⟩ := tryJoinAllMap_isError_of_mem (YouTubeScraper.ysearch o3 keyword page)
      zones Zone.unspecified hmem "[YouTube] unsupported search zone" rfl
    exact ⟨e, by rw [YouTubeScraper.search, he]; rfl⟩
  · intro rest
    rfl

/-- Witness for the amended C3 at concrete oracles and zone lists. -/
theorem c3_witness :
    (Zone.unspecified ∈ [Zone.unspecified])
    ∧ (∃ e, BiliScraper.search biliOracleW "k" 1 [Zone.unspecified] = Except.error e)
    ∧ (∃ e, NeteaseScraper.search neteaseOracleW "k" 1 [Zone.unspecified] = Except.error e)
    ∧ (∃ e, YouTubeScraper.search youtubeOracleW "k" 1 [Zone.unspecified] = Except.error e)
    ∧ SpotifyScraper.search spotifyOracleW "k" 1 [Zone.unspecified]
        = SpotifyScraper.search spotifyOracleW "k" 1 [Zone.track] := by
  have h := c3_unsupported_zone biliOracleW neteaseOracleW youtubeOracleW spotifyOracleW
    "k" 1 [Zone.unspecified] (by decide)
  exact ⟨by decide, h.1, h.2.1, h.2.2.1, h.2.2.2 []⟩

/-- C9: every scraper's `detail` answers only the playlist zone: any other
zone yields an error value; and on success the returned item is the
playlist built from the provider's detail fetch, its `tracks` list
populated from the fetched members. -/
theorem c9_detail_playlist_only (o1 : BiliOracle) (o2 : NeteaseOracle) (o3 : YouTubeOracle)
    (o4 : SpotifyOracle) (id : String) (zone : Zone) (hz : zone ≠ Zone.playlist) :
    ((∃ e, BiliScraper.detail o1 id zone = Except.error e)
      ∧ (∃ e, NeteaseScraper.detail o2 id zone = Except.error e)
      ∧ (∃ e, YouTubeScraper.detail o3 id zone = some (Except.error e))
      ∧ (∃ e, SpotifyScraper.detail o4 id zone = Except.error e))
    ∧ (∀ it, BiliScraper.detail o1 id Zone.playlist = Except.ok it →
        ∃ vd, o1.video_detail id = Except.ok vd
          ∧ it = { item := some (DetailItem.Item.playlist vd.intoPlaylistDetail) }
          ∧ vd.intoPlaylistDetail.tracks
              = vd.videos.map (fun v => v.into_track_info vd.id (Image.fromUrl vd.cover_url)
                  (vd.allUsers.map BiliUser.intoArtist)))
    ∧ (∀ it, NeteaseScraper.detail o2 id Zone.playlist = Except.ok it →
        ∃ pl songs P, o2.playlist_detail id = Except.ok pl
          ∧ o2.batch_songs
              (String.intercalate "," (pl.track_ids.map (fun i => toString i.id)))
              = Except.ok songs
          ∧ it = { item := some (DetailItem.Item.playlist P) }
          ∧ P.tracks = songs.map NeteaseSong.intoTrack)
    ∧ (∀ r, YouTubeScraper.detail o3 id Zone.playlist = some (Except.ok r) →
        ∃ d P, o3.fetch_playlist id = Except.ok d
          ∧ d.intoPlaylistDetail = some P
          ∧ r = { item := some (DetailItem.Item.playlist P) }
          ∧ P.tracks = d.videos.map InvidiousPlaylistVideoItem.intoTrack)
    ∧ (∀ it, SpotifyScraper.detail o4 id Zone.playlist = Except.ok it →
        ∃ pid pl tracks P, o4.parse_playlist_id id = Except.ok pid
          ∧ o4.playlist pid = Except.ok pl
          ∧ spotifyCollectTracks (o4.playlist_items pid) = Except.ok tracks
          ∧ it = { item := some (DetailItem.Item.playlist P) }
          ∧ P.tracks = tracks) := by
  refine ⟨?_, ?_, ?_, ?_, ?_⟩
  · cases zone with
    | playlist => exact absurd rfl hz
    | unspecified => exact ⟨⟨_, rfl⟩, ⟨_, rfl⟩, ⟨_, rfl⟩, ⟨_, rfl⟩⟩
    | track => exact ⟨⟨_, rfl⟩, ⟨_, rfl⟩, ⟨_, rfl⟩, ⟨_, rfl⟩⟩
    | artist => exact ⟨⟨_, rfl⟩, ⟨_, rfl⟩, ⟨_, rfl⟩, ⟨_, rfl⟩⟩
  · intro it h
    rw [BiliScraper.detail] at h
    cases hv : o1.video_detail id with
    | error e => rw [hv] at h; exact absurd h (by simp [Except.map])
    | ok vd =>
      rw [hv] at h
      exact ⟨vd, rfl, (Except.ok.inj h).symm, rfl⟩
  · intro it h
    rw [NeteaseScraper.detail, if_neg (by simp)] at h
    cases hp : o2.playlist_detail id with
    | error e => simp [hp] at h
    | ok pl =>
      simp only [hp] at h
      cases hs : o2.batch_songs
          (String.intercalate "," (pl.track_ids.map (fun i => toString i.id))) with
      | error e => simp [hs] at h
      | ok songs =>
        simp only [hs] at h
        exact ⟨pl, songs, _, rfl, hs, (Except.ok.inj h).symm, rfl⟩
  · intro r h
    unfold YouTubeScraper.detail YouTubeScraper.playlist_detail at h
    cases hf : o3.fetch_playlist id with
    | error e => simp [hf, Except.map] at h
    | ok d =>
      simp only [hf] at h
      cases hp : d.intoPlaylistDetail with
      | none => simp [hp] at h
      | some P =>
        simp only [hp, Option.map_some', Except.map] at h
        refine ⟨d, P, rfl, hp, (Except.ok.inj (Option.some.inj h)).symm, ?_⟩
        cases hvids : d.videos with
        | nil =>
          unfold InvidiousPlaylistDetail.intoPlaylistDetail at hp
          simp [hvids] at hp
        | cons v0 rest =>
          unfold InvidiousPlaylistDetail.intoPlaylistDetail at hp
          simp only [hvids] at hp
          rw [← Option.some.inj hp]
  · intro it h
    rw [SpotifyScraper.detail, if_neg (by simp)] at h
    cases hpid : o4.parse_playlist_id id with
    | error e => simp [hpid] at h
    | ok pid =>
      simp only [hpid] at h
      cases hpl : o4.playlist pid with
      | error e => simp [hpl] at h
      | ok pl =>
        simp only [hpl] at h
        cases ht : spotifyCollectTracks (o4.playlist_items pid) with
        | error e => simp [ht] at h
        | ok tracks =>
          simp only [ht] at h
          exact ⟨pid, pl, tracks, _, rfl, hpl, ht, (Except.ok.inj h).symm, rfl⟩

/-- Witness for C9 at a concrete non-playlist zone and concrete oracles. -/
theorem c9_witness :
    (Zone.track ≠ Zone.playlist)
    ∧ (∃ e, BiliScraper.detail biliOracleW "id1" Zone.track = Except.error e)
    ∧ (∃ e, NeteaseScraper.detail neteaseOracleW "id1" Zone.track = Except.error e)
    ∧ (∃ e, YouTubeScraper.detail youtubeOracleW "id1" Zone.track = some (Except.error e))
    ∧ (∃ e, SpotifyScraper.detail spotifyOracleW "id1" Zone.track = Except.error e) := by
  have h := c9_detail_playlist_only biliOracleW neteaseOracleW youtubeOracleW spotifyOracleW
    "id1" Zone.track (by decide)
  exact ⟨by decide, h.1.1, h.1.2.1, h.1.2.2.1, h.1.2.2.2⟩

/-- C10: converting a fetched YouTube playlist detail succeeds exactly when
its videos list is non-empty; the cover is built from the FIRST video's
thumbnails, and an empty videos list makes the conversion panic (the
`videos[0]` index is out of bounds), modelled by the `none` result. -/
theorem c10_cover_indexes_first_video (d : InvidiousPlaylistDetail) :
    ((d.intoPlaylistDetail).isSome = true ↔ d.videos ≠ [])
    ∧ (d.videos = [] → d.intoPlaylistDetail = none)
    ∧ (∀ v0 rest, d.videos = v0 :: rest →
      ∃ pd, d.intoPlaylistDetail = some pd ∧ pd.cover = thumbnails_to_image v0.covers) := by
  have hnone : d.videos = [] → d.intoPlaylistDetail = none := by
    intro h
    rw [InvidiousPlaylistDetail.intoPlaylistDetail, h]
  have hsome : ∀ v0 rest, d.videos = v0 :: rest →
      ∃ pd, d.intoPlaylistDetail = some pd ∧ pd.cover = thumbnails_to_image v0.covers := by
    intro v0 rest h
    rw [InvidiousPlaylistDetail.intoPlaylistDetail, h]
    exact ⟨_, rfl, rfl⟩
  refine ⟨⟨?_, ?_⟩, hnone, hsome⟩
  · intro hs hnil
    rw [hnone hnil] at hs
    exact absurd hs (by simp)
  · intro hne
    cases hv : d.videos with
    | nil => exact absurd hv hne
    | cons v0 rest =>
      obtain ⟨pd, hpd, _⟩ := hsome v0 rest hv
      rw [hpd]
      rfl

/-- A fetched YouTube playlist with no videos. -/
def ytEmptyPlaylistW : InvidiousPlaylistDetail :=
  { id := "p0", title := "empty", author_name := "a", author_id := "aid",
    author_thumbnails := [], description := "d", videos := [] }

/-- A fetched YouTube playlist video entry. -/
def ytVideoItemW : InvidiousPlaylistVideoItem :=
  { id := "v1", title := "t1", covers := [], author_name := "a", author_id := "aid" }

/-- A fetched YouTube playlist with one video. -/
def ytOnePlaylistW : InvidiousPlaylistDetail :=
  { id := "p1", title := "one", author_name := "a", author_id := "aid",
    author_thumbnails := [], description := "d", videos := [ytVideoItemW] }

/-- Witness for C10 at a concrete empty and a concrete non-empty playlist. -/
theorem c10_witness :
    (ytEmptyPlaylistW.videos = []) ∧ ytEmptyPlaylistW.intoPlaylistDetail = none
    ∧ (ytOnePlaylistW.videos = [ytVideoItemW])
    ∧ ∃ pd, ytOnePlaylistW.intoPlaylistDetail = some pd
        ∧ pd.cover = thumbnails_to_image ytVideoItemW.covers :=
  ⟨rfl, (c10_cover_indexes_first_video ytEmptyPlaylistW).2.1 rfl, rfl,
    (c10_cover_indexes_first_video ytOnePlaylistW).2.2 ytVideoItemW [] rfl⟩

end Bragi
